import Mathlib

/-!
Verification of the audio-concatenation core of `main.py` (VOICEVOX tool).

The two core functions are shallowly embedded:

* `create_silence_frames` (main.py, lines 88-99): builds the raw silence
  buffer `struct.pack("<h", 0) * n_channels * n_frames` with
  `n_frames = int(framerate * seconds)`; raises `ValueError` when
  `sampwidth != 2`.
* `concat_wavs_with_silence` (main.py, lines 106-147): reads the first
  wav header as the reference format, opens the output with that
  format, writes the frames of each segment and a silence gap between
  consecutive segments, raising `ValueError` on a header mismatch.

Modelling conventions:

* Python numbers are exact: byte values are `Nat`, the silence duration is
  `ℚ`, and the Python `int(...)` conversion (truncation toward zero) is
  `pyInt`.
* Byte strings are `List Nat`; the Python `bytes * n` (empty for `n ≤ 0`) is
  `bytesRepZ`.
* A parsed wav file (what `wave.open(..., "rb")` exposes: the five header
  fields plus the full frame data returned by `readframes(getnframes())`)
  is the structure `Wav`.
* Exceptions are `Except PyError`.  The implicitly raised `IndexError`
  from `wav_list[0]` on an empty list is distinguished from the
  explicitly raised `ValueError`s; `pyCrash` marks the former as an
  unhandled crash.
* The output file is modelled by `OutFile`.  In CPython,
  `with wave.open(output_wav, "wb") as out_w:` closes the writer on every
  exit path, and `Wave_write.close` writes/patches the header, so once the
  output has been opened a well-formed wav file holding the frames written
  so far remains on disk even when the body raises.  Accordingly
  `concat_wavs_with_silence` returns both the `Except` outcome and the
  `Option OutFile` artifact left on disk: `none` only when the failure
  happens before the output is opened.
-/

/-- Python `int(q)` on an exact rational: truncation toward zero
(`num.tdiv den` is T-division, which truncates toward zero, and
`den > 0`). -/
def pyInt (q : ℚ) : Int :=
  q.num.tdiv q.den

/-- Python `b * n` for `n : Nat`: the byte string repeated `n` times. -/
def bytesRepN (b : List Nat) (n : Nat) : List Nat :=
  List.flatten (List.replicate n b)

instance {ε α : Type} [DecidableEq ε] [DecidableEq α] : DecidableEq (Except ε α) := fun x y =>
  match x, y with
  | .error a, .error b =>
    if h : a = b then .isTrue (by rw [h]) else .isFalse (by simp [h])
  | .error _, .ok _ => .isFalse (by simp)
  | .ok _, .error _ => .isFalse (by simp)
  | .ok a, .ok b =>
    if h : a = b then .isTrue (by rw [h]) else .isFalse (by simp [h])

/-- Python `b * n` for `n : int`: empty whenever `n ≤ 0`. -/
def bytesRepZ (b : List Nat) (n : Int) : List Nat :=
  bytesRepN b n.toNat

/-- Python `struct.pack("<h", 0)`: the 16-bit little-endian encoding of 0. -/
def struct_pack_h0 : List Nat := [0, 0]

/-- Errors raised by the embedded code.  `indexError` is the implicit
`IndexError` from subscripting an empty list; `valueError` carries the
message of an explicit `raise ValueError(...)`. -/
inductive PyError where
  | indexError : PyError
  | valueError : String → PyError
  deriving DecidableEq

/-- An error is a crash when it is an implicitly raised builtin exception
(not an explicit `raise` in the source). -/
def pyCrash : PyError → Bool
  | .indexError => true
  | .valueError _ => false

/-- Message of the `ValueError` raised by `create_silence_frames` for an
unsupported sample width (main.py line 95). -/
def unsupportedMsg : String := "このサンプルは16bit PCM (sampwidth=2) のみ対応です。"

/-- Message of the `ValueError` raised on a wav header mismatch
(main.py line 141). -/
def wavMismatchMsg : String := "wav のフォーマットが一致していません。"

/-- The five header fields `wave` exposes for a wav file: the
`AudioFormat` of the spec. -/
structure WavParams where
  nchannels : Nat
  sampwidth : Nat
  framerate : Nat
  comptype : String
  compname : String
  deriving DecidableEq

/-- A parsed wav file: header fields plus the raw frame data
(`readframes(getnframes())`), i.e. the `AudioSegment` of the spec. -/
structure Wav where
  params : WavParams
  frames : List Nat
  deriving DecidableEq

/-- The finalized output file: header parameters set via `setnchannels` /
`setsampwidth` / `setframerate` / `setcomptype`, plus all frame bytes
written before the writer was closed. -/
structure OutFile where
  params : WavParams
  frames : List Nat
  deriving DecidableEq

/-- `create_silence_frames(n_channels, sampwidth, framerate, seconds)`
(main.py lines 88-99): `n_frames = int(framerate * seconds)`; raises
`ValueError` unless `sampwidth == 2`; otherwise returns
`struct.pack("<h", 0) * n_channels * n_frames`. -/
def create_silence_frames (n_channels sampwidth framerate : Nat) (seconds : ℚ) :
    Except PyError (List Nat) :=
  let n_frames : Int := pyInt ((framerate : ℚ) * seconds)
  if sampwidth ≠ 2 then
    .error (.valueError unsupportedMsg)
  else
    .ok (bytesRepZ (bytesRepN struct_pack_h0 n_channels) n_frames)

/-- The inline header check of the concatenation loop (main.py lines
136-141): compares exactly `nchannels`, `sampwidth` and `framerate` of the
candidate against the reference, in that order, and raises the generic
`ValueError` on any difference. -/
def validate_format (ref cand : WavParams) : Except PyError Unit :=
  if cand.nchannels ≠ ref.nchannels
      ∨ cand.sampwidth ≠ ref.sampwidth
      ∨ cand.framerate ≠ ref.framerate then
    .error (.valueError wavMismatchMsg)
  else
    .ok ()

/-- The `for i, wav_bytes in enumerate(wav_list):` loop of
`concat_wavs_with_silence` (main.py lines 132-147): validates each
segment against the reference, writes its frames, and writes the silence
buffer after every segment but the last.  Returns the loop outcome
together with all frame bytes written to the output (also on the error
path, where the bytes written before the raise remain). -/
def write_segments (ref : WavParams) (silence : List Nat) :
    List Wav → Except PyError Unit × List Nat
  | [] => (.ok (), [])
  | w :: rest =>
    match validate_format ref w.params with
    | .error e => (.error e, [])
    | .ok _ =>
      let chunk := w.frames ++ (if rest.isEmpty then [] else silence)
      let k := write_segments ref silence rest
      (k.1, chunk ++ k.2)

/-- `concat_wavs_with_silence(wav_list, silence_seconds, output_wav)`
(main.py lines 106-147).  `wav_list[0]` raises `IndexError` on an empty
list, before any output file is created.  Otherwise the header of the
first wav is the reference format, the output is opened with that format,
the silence buffer is built once, and the segments are written in order.
The second component is the file left on disk: `none` only for the empty
list; on every other path the `with` block closes (finalizes) the output
with the frames written so far. -/
def concat_wavs_with_silence (wav_list : List Wav) (silence_seconds : ℚ) :
    Except PyError Unit × Option OutFile :=
  match wav_list with
  | [] => (.error .indexError, none)
  | first :: rest =>
    let ref := first.params
    match create_silence_frames ref.nchannels ref.sampwidth ref.framerate silence_seconds with
    | .error e => (.error e, some ⟨ref, []⟩)
    | .ok silence =>
      let k := write_segments ref silence (first :: rest)
      (k.1, some ⟨ref, k.2⟩)

/-- Decoding of a 16-bit little-endian signed sample from two bytes. -/
def decodeS16LE (lo hi : Nat) : Int :=
  let u : Nat := lo + 256 * hi
  if u < 32768 then (u : Int) else (u : Int) - 65536

/-! ### Bridge lemmas for `pyInt` -/

/-- Truncation toward zero agrees with `⌊·⌋` on nonnegative rationals. -/
theorem pyInt_of_nonneg (q : ℚ) (h : 0 ≤ q) : pyInt q = ⌊q⌋ := by
  rw [pyInt, Int.tdiv_eq_ediv (Rat.num_nonneg.mpr h) (Int.natCast_nonneg _), Rat.floor_def]

/-- Truncation of a nonpositive rational clamps to `0` under `Int.toNat`. -/
theorem pyInt_toNat_of_nonpos (q : ℚ) (h : q ≤ 0) : (pyInt q).toNat = 0 := by
  apply Int.toNat_of_nonpos
  have h1 : 0 ≤ (-q.num).tdiv q.den :=
    Int.tdiv_nonneg (by simpa using Rat.num_nonpos.mpr h) (Int.natCast_nonneg _)
  rw [Int.neg_tdiv] at h1
  simpa [pyInt] using neg_nonneg.mp h1

theorem pyInt_mul_zero (fr : Nat) : pyInt ((fr : ℚ) * 0) = 0 := by
  rw [mul_zero]; simp [pyInt]

/-! ### Helper lemmas about the embedded functions -/

theorem bytesRepN_replicate (k a : Nat) :
    ∀ n : Nat, bytesRepN (List.replicate k a) n = List.replicate (n * k) a := by
  intro n
  induction n with
  | zero => simp [bytesRepN]
  | succ n ih =>
    have hstep : bytesRepN (List.replicate k a) (n + 1)
        = List.replicate k a ++ bytesRepN (List.replicate k a) n := by
      simp [bytesRepN, List.replicate_succ]
    rw [hstep, ih, ← List.replicate_add]
    congr 1
    ring

/-- With a supported sample width the silence buffer is a run of zero bytes
of length `n_frames.toNat * (n_channels * 2)`. -/
theorem create_silence_frames_ok (nch fr : Nat) (d : ℚ) :
    create_silence_frames nch 2 fr d =
      .ok (List.replicate ((pyInt ((fr : ℚ) * d)).toNat * (nch * 2)) 0) := by
  have h2 : struct_pack_h0 = List.replicate 2 0 := rfl
  have h1 : bytesRepN struct_pack_h0 nch = List.replicate (nch * 2) 0 := by
    rw [h2, bytesRepN_replicate]
  simp only [create_silence_frames, bytesRepZ, if_neg (by decide : ¬ (2 ≠ 2))]
  rw [h1, bytesRepN_replicate]

theorem create_silence_frames_zero (nch fr : Nat) :
    create_silence_frames nch 2 fr 0 = .ok [] := by
  rw [create_silence_frames_ok, pyInt_mul_zero]
  simp

theorem validate_format_self (p : WavParams) : validate_format p p = .ok () := by
  simp [validate_format]

/-- Closed-form characterization of the header check: success exactly when
the three compared fields agree, otherwise the one generic `ValueError`. -/
theorem validate_format_eq_ite (ref cand : WavParams) :
    validate_format ref cand =
      if cand.nchannels = ref.nchannels ∧ cand.sampwidth = ref.sampwidth
          ∧ cand.framerate = ref.framerate
      then .ok ()
      else .error (.valueError wavMismatchMsg) := by
  rw [validate_format]
  split_ifs with h1 h2 h3 <;> tauto

theorem getD_replicate_zero (n i : Nat) : (List.replicate n (0 : Nat)).getD i 0 = 0 := by
  induction n generalizing i with
  | zero => simp
  | succ n ih =>
    cases i with
    | zero => simp [List.replicate_succ]
    | succ i => simp [List.replicate_succ, ih]

theorem decodeS16LE_zero : decodeS16LE 0 0 = 0 := rfl

/-! ### Claim C1 -/

/-- C1 counterexample: on the empty input sequence the failure is the
implicitly raised `IndexError` from `wav_list[0]` — an unhandled crash,
not a dedicated EmptyInput error gracefully reported to the caller, so
the claim as stated is false at the concrete input `[]`. -/
theorem claim_C1_counterexample :
    (concat_wavs_with_silence [] 30).1 = .error .indexError
      ∧ pyCrash .indexError = true :=
  ⟨rfl, rfl⟩

/-- C1 (amended): for the empty input sequence and any silence duration,
`concat_wavs_with_silence` fails with the implicitly raised `IndexError`
from `wav_list[0]` — an unhandled crash rather than a graceful dedicated
EmptyInput error — and, since the failure happens before the output file
is opened, no output artifact is produced. -/
theorem claim_C1_amended (d : ℚ) :
    concat_wavs_with_silence [] d = (.error .indexError, none)
      ∧ pyCrash .indexError = true :=
  ⟨rfl, rfl⟩

/-! ### Claim C3 -/

/-- C3 counterexample: a channel-count-only perturbation and a
frame-rate-only perturbation of the same reference format yield the very
same error value, the single generic `ValueError` message, so the
FormatMismatch error does not name the differing field (a fixed message
cannot identify which of two different fields differs). -/
theorem claim_C3_counterexample :
    validate_format ⟨1, 2, 24000, "NONE", "nc"⟩ ⟨2, 2, 24000, "NONE", "nc"⟩
      = validate_format ⟨1, 2, 24000, "NONE", "nc"⟩ ⟨1, 2, 48000, "NONE", "nc"⟩
    ∧ validate_format ⟨1, 2, 24000, "NONE", "nc"⟩ ⟨2, 2, 24000, "NONE", "nc"⟩
      = .error (.valueError "wav のフォーマットが一致していません。") :=
  ⟨rfl, rfl⟩

/-- C3 (amended): the format validator succeeds iff `channel_count`,
`sample_width_bytes` and `frame_rate` of the candidate all equal the
fields of the reference; every failing candidate (in particular every single-field
perturbation) fails with the one generic FormatMismatch `ValueError`,
whose fixed message does not name the differing field; and the result
never depends on the compression type/name of either format. -/
theorem claim_C3_amended (ref cand : WavParams) :
    (validate_format ref cand = .ok ()
        ↔ cand.nchannels = ref.nchannels ∧ cand.sampwidth = ref.sampwidth
            ∧ cand.framerate = ref.framerate)
    ∧ (validate_format ref cand ≠ .ok ()
        → validate_format ref cand = .error (.valueError wavMismatchMsg))
    ∧ ∀ ref' cand' : WavParams,
        ref'.nchannels = ref.nchannels → ref'.sampwidth = ref.sampwidth
        → ref'.framerate = ref.framerate
        → cand'.nchannels = cand.nchannels → cand'.sampwidth = cand.sampwidth
        → cand'.framerate = cand.framerate
        → validate_format ref' cand' = validate_format ref cand := by
  refine ⟨?_, ?_, ?_⟩
  · rw [validate_format_eq_ite]
    split_ifs with h
    · exact iff_of_true rfl h
    · exact iff_of_false (by simp) h
  · rw [validate_format_eq_ite]
    split_ifs with h
    · intro hc
      exact absurd rfl hc
    · intro _
      rfl
  · intro ref' cand' e1 e2 e3 e4 e5 e6
    rw [validate_format_eq_ite, validate_format_eq_ite, e1, e2, e3, e4, e5, e6]

/-- C3 witness: at the reference (1 ch, 2 bytes, 24000 Hz) the validator
accepts an identical candidate, and rejects a channel-count perturbation
with the generic mismatch error. -/
theorem claim_C3_witness :
    validate_format ⟨1, 2, 24000, "NONE", "nc"⟩ ⟨1, 2, 24000, "NONE", "nc"⟩ = .ok ()
    ∧ validate_format ⟨1, 2, 24000, "NONE", "nc"⟩ ⟨2, 2, 24000, "NONE", "nc"⟩
        = .error (.valueError wavMismatchMsg) :=
  ⟨(claim_C3_amended ⟨1, 2, 24000, "NONE", "nc"⟩ ⟨1, 2, 24000, "NONE", "nc"⟩).1.mpr
      ⟨rfl, rfl, rfl⟩,
   (claim_C3_amended ⟨1, 2, 24000, "NONE", "nc"⟩ ⟨2, 2, 24000, "NONE", "nc"⟩).2.1
      (by decide)⟩

/-! ### Claim C4 -/

/-- C4: for every channel count ≥ 1, frame rate ≥ 1 and duration ≥ 0 with
sample width 2, the silence generator succeeds with a buffer of exactly
`channel_count * ⌊frame_rate * duration⌋ * 2` bytes (for a nonnegative
product, the truncating Python `int(...)` agrees with the floor, so the
fractional leftover is dropped, not rounded), and every 16-bit
little-endian sample in the buffer decodes to zero. -/
theorem claim_C4 (nch fr : Nat) (d : ℚ) (hnch : 1 ≤ nch) (hfr : 1 ≤ fr) (hd : 0 ≤ d) :
    ∃ buf, create_silence_frames nch 2 fr d = .ok buf
      ∧ buf.length = nch * (⌊(fr : ℚ) * d⌋).toNat * 2
      ∧ ∀ k : Nat, 2 * k + 1 < buf.length →
          decodeS16LE (buf.getD (2 * k) 0) (buf.getD (2 * k + 1) 0) = 0 := by
  refine ⟨_, create_silence_frames_ok nch fr d, ?_, ?_⟩
  · rw [pyInt_of_nonneg _ (mul_nonneg (Nat.cast_nonneg fr) hd)]
    rw [List.length_replicate]
    ring
  · intro k hk
    rw [getD_replicate_zero, getD_replicate_zero]
    exact decodeS16LE_zero

/-- C4 witness at 1 channel, frame rate 3, duration 1/2 second: the
hypotheses hold and the conclusion follows from `claim_C4`. -/
theorem claim_C4_witness :
    (1 ≤ 1 ∧ 1 ≤ 3 ∧ (0 : ℚ) ≤ 1/2)
    ∧ ∃ buf, create_silence_frames 1 2 3 (1/2) = .ok buf
      ∧ buf.length = 1 * (⌊((3 : Nat) : ℚ) * (1/2)⌋).toNat * 2
      ∧ ∀ k : Nat, 2 * k + 1 < buf.length →
          decodeS16LE (buf.getD (2 * k) 0) (buf.getD (2 * k + 1) 0) = 0 :=
  ⟨⟨le_refl 1, by decide, one_half_pos.le⟩,
   claim_C4 1 3 (1/2) (le_refl 1) (by decide) one_half_pos.le⟩

/-! ### Claim C7 -/

/-- C7: for every sample width other than 2 and any values of the other
arguments, the silence generator fails with the UnsupportedFormat
`ValueError` and produces no buffer. -/
theorem claim_C7 (nch sw fr : Nat) (d : ℚ) (h : sw ≠ 2) :
    create_silence_frames nch sw fr d = .error (.valueError unsupportedMsg) := by
  simp [create_silence_frames, h]

/-- C7 witness: sample width 1 is rejected. -/
theorem claim_C7_witness :
    (1 ≠ 2)
    ∧ create_silence_frames 3 1 44100 5 = .error (.valueError unsupportedMsg) :=
  ⟨by decide, claim_C7 3 1 44100 5 (by decide)⟩

/-! ### Claim C9 -/

/-- C9: the silence generator is deterministic — two calls with equal
argument tuples return equal results.  In this embedding the source
function is a pure function of its four arguments (it performs no I/O and
mutates nothing; its only exception is modelled as an `Except.error`
value), so freedom from side effects holds by construction. -/
theorem claim_C9 (nch sw fr : Nat) (d : ℚ) (nch' sw' fr' : Nat) (d' : ℚ)
    (h1 : nch = nch') (h2 : sw = sw') (h3 : fr = fr') (h4 : d = d') :
    create_silence_frames nch sw fr d = create_silence_frames nch' sw' fr' d' := by
  rw [h1, h2, h3, h4]

/-- C9 witness: two calls at (2 ch, 2 bytes, 8000 Hz, 1 s) agree. -/
theorem claim_C9_witness :
    ((2 : Nat) = 2 ∧ (2 : Nat) = 2 ∧ (8000 : Nat) = 8000 ∧ (1 : ℚ) = 1)
    ∧ create_silence_frames 2 2 8000 1 = create_silence_frames 2 2 8000 1 :=
  ⟨⟨rfl, rfl, rfl, rfl⟩, claim_C9 2 2 8000 1 2 2 8000 1 rfl rfl rfl rfl⟩

/-! ### Claim C10 -/

/-- C10: with sample width 2 and a negative duration the silence generator
does not fail: `int(framerate * seconds)` is nonpositive, the Python
`bytes * n` collapses to the empty byte string for `n ≤ 0`, and the
function totally returns the empty buffer. -/
theorem claim_C10 (nch fr : Nat) (d : ℚ) (hd : d < 0) :
    create_silence_frames nch 2 fr d = .ok [] := by
  have hq : (fr : ℚ) * d ≤ 0 := mul_nonpos_iff.mpr (Or.inl ⟨Nat.cast_nonneg fr, hd.le⟩)
  rw [create_silence_frames_ok, pyInt_toNat_of_nonpos _ hq]
  simp

/-- C10 witness at 1 channel, 100 Hz, duration -1 s. -/
theorem claim_C10_witness :
    ((-1 : ℚ) < 0) ∧ create_silence_frames 1 2 100 (-1) = .ok [] :=
  ⟨neg_one_lt_zero, claim_C10 1 100 (-1) neg_one_lt_zero⟩

/-! ### Claim C2 -/

/-- C2 counterexample: at `[A, B]` with differing frame rates and reference
sample width 2, assembly does raise the FormatMismatch `ValueError`, but
the output context manager finalizes a partial artifact containing the
frames of A — the artifact component is `some ...`, not `none`, refuting
"no finalized output stream is produced / no partial finalize occurs".
Moreover with reference sample width 1 and differing frame rates the
failure is the UnsupportedFormat `ValueError`, not FormatMismatch, and a
finalized (empty) artifact again exists. -/
theorem claim_C2_counterexample :
    (concat_wavs_with_silence
        [⟨⟨1, 2, 100, "NONE", "nc"⟩, [1, 2]⟩, ⟨⟨1, 2, 200, "NONE", "nc"⟩, [3, 4]⟩] 0).1
      = .error (.valueError wavMismatchMsg)
    ∧ (concat_wavs_with_silence
        [⟨⟨1, 2, 100, "NONE", "nc"⟩, [1, 2]⟩, ⟨⟨1, 2, 200, "NONE", "nc"⟩, [3, 4]⟩] 0).2
      = some ⟨⟨1, 2, 100, "NONE", "nc"⟩, [1, 2]⟩
    ∧ (concat_wavs_with_silence
        [⟨⟨1, 2, 100, "NONE", "nc"⟩, [1, 2]⟩, ⟨⟨1, 2, 200, "NONE", "nc"⟩, [3, 4]⟩] 0).2
      ≠ none
    ∧ concat_wavs_with_silence
        [⟨⟨1, 1, 100, "NONE", "nc"⟩, [7]⟩, ⟨⟨1, 1, 200, "NONE", "nc"⟩, [8]⟩] 0
      = (.error (.valueError unsupportedMsg), some ⟨⟨1, 1, 100, "NONE", "nc"⟩, []⟩) := by
  refine ⟨?_, ?_, ?_, by decide⟩ <;>
    simp [concat_wavs_with_silence, create_silence_frames_zero, write_segments,
      validate_format]

/-- C2 (amended): for `[A, B]` with reference sample width 2 and the frame
rate of B differing from that of A, assembly fails with the FormatMismatch
`ValueError` and no complete assembly is produced; however the `with`
block finalizes a partial artifact whose frames are those of A followed
by the gap silence (the frames of B are never written). -/
theorem claim_C2_amended (A B : Wav) (d : ℚ)
    (hsw : A.params.sampwidth = 2)
    (hfr : B.params.framerate ≠ A.params.framerate) :
    (concat_wavs_with_silence [A, B] d).1 = .error (.valueError wavMismatchMsg)
    ∧ (concat_wavs_with_silence [A, B] d).2
        = some ⟨A.params,
            A.frames ++ List.replicate
              ((pyInt ((A.params.framerate : ℚ) * d)).toNat * (A.params.nchannels * 2)) 0⟩ := by
  have hs := create_silence_frames_ok A.params.nchannels A.params.framerate d
  have hv : validate_format A.params B.params = .error (.valueError wavMismatchMsg) := by
    rw [validate_format]
    exact if_pos (Or.inr (Or.inr hfr))
  constructor <;>
    simp [concat_wavs_with_silence, hsw, hs, write_segments, validate_format_self, hv]

/-- C2 witness at (1 ch, 2 bytes, 100 Hz) vs (1 ch, 2 bytes, 200 Hz),
silence duration 0. -/
theorem claim_C2_witness :
    ((2 : Nat) = 2 ∧ (200 : Nat) ≠ 100)
    ∧ (concat_wavs_with_silence
        [⟨⟨1, 2, 100, "NONE", "nc"⟩, [1, 2]⟩, ⟨⟨1, 2, 200, "NONE", "nc"⟩, [3, 4]⟩] 0).1
      = .error (.valueError wavMismatchMsg) :=
  ⟨⟨rfl, by decide⟩,
   (claim_C2_amended ⟨⟨1, 2, 100, "NONE", "nc"⟩, [1, 2]⟩ ⟨⟨1, 2, 200, "NONE", "nc"⟩, [3, 4]⟩ 0
      rfl (by decide)).1⟩

/-! ### Claim C5 -/

/-- C5 counterexample: two segments with identical (matching) formats of
sample width 1 refute the claim as stated — the unconditional silence
generation fails with UnsupportedFormat before any frames are written, so
no assembled output with frame data `A ++ silence ++ B` exists (the
finalized artifact is empty and the outcome is an error, not success). -/
theorem claim_C5_counterexample :
    concat_wavs_with_silence
        [⟨⟨1, 1, 100, "NONE", "nc"⟩, [7]⟩, ⟨⟨1, 1, 100, "NONE", "nc"⟩, [7]⟩] 0
      = (.error (.valueError unsupportedMsg), some ⟨⟨1, 1, 100, "NONE", "nc"⟩, []⟩)
    ∧ (concat_wavs_with_silence
        [⟨⟨1, 1, 100, "NONE", "nc"⟩, [7]⟩, ⟨⟨1, 1, 100, "NONE", "nc"⟩, [7]⟩] 0).1
      ≠ .ok () := by
  decide

/-- C5 (amended): for `[A, B]` with matching formats of sample width 2 and
nonnegative silence duration d, the assembled output succeeds and its
frame data is exactly the frames of A, then `⌊frame_rate · d⌋` silent frames
(`channel_count · ⌊frame_rate · d⌋ · 2` zero bytes), then the frames of B;
and when both segments hold whole frames, the total output frame count is
frames(A) + `⌊frame_rate · d⌋` + frames(B). -/
theorem claim_C5_amended (A B : Wav) (d : ℚ)
    (hsw : A.params.sampwidth = 2)
    (hch : B.params.nchannels = A.params.nchannels)
    (hsw2 : B.params.sampwidth = A.params.sampwidth)
    (hfr : B.params.framerate = A.params.framerate)
    (hd : 0 ≤ d)
    (hnch : 1 ≤ A.params.nchannels)
    (hA : (A.params.nchannels * 2) ∣ A.frames.length)
    (hB : (A.params.nchannels * 2) ∣ B.frames.length) :
    concat_wavs_with_silence [A, B] d =
      (.ok (), some ⟨A.params,
        A.frames
          ++ List.replicate
              (A.params.nchannels * (⌊(A.params.framerate : ℚ) * d⌋).toNat * 2) 0
          ++ B.frames⟩)
    ∧ (A.frames
          ++ List.replicate
              (A.params.nchannels * (⌊(A.params.framerate : ℚ) * d⌋).toNat * 2) 0
          ++ B.frames).length / (A.params.nchannels * 2)
        = A.frames.length / (A.params.nchannels * 2)
          + (⌊(A.params.framerate : ℚ) * d⌋).toNat
          + B.frames.length / (A.params.nchannels * 2) := by
  have hpy : (pyInt ((A.params.framerate : ℚ) * d)).toNat
      = (⌊(A.params.framerate : ℚ) * d⌋).toNat := by
    rw [pyInt_of_nonneg _ (mul_nonneg (Nat.cast_nonneg _) hd)]
  constructor
  · have hs := create_silence_frames_ok A.params.nchannels A.params.framerate d
    rw [hpy, show (⌊(A.params.framerate : ℚ) * d⌋).toNat * (A.params.nchannels * 2)
        = A.params.nchannels * (⌊(A.params.framerate : ℚ) * d⌋).toNat * 2 from by ring] at hs
    simp only [concat_wavs_with_silence, hsw, hs, write_segments,
      validate_format_eq_ite, hch, hsw2, hfr]
    simp
  · obtain ⟨x, hx⟩ := hA
    obtain ⟨z, hz⟩ := hB
    have hpos : 0 < A.params.nchannels * 2 := by omega
    generalize (⌊(A.params.framerate : ℚ) * d⌋).toNat = m
    have hlen : (A.frames
          ++ List.replicate (A.params.nchannels * m * 2) 0 ++ B.frames).length
        = A.params.nchannels * 2 * (x + m + z) := by
      simp only [List.length_append, List.length_replicate, hx, hz]
      ring
    rw [hlen, hx, hz, Nat.mul_div_cancel_left _ hpos, Nat.mul_div_cancel_left _ hpos,
      Nat.mul_div_cancel_left _ hpos]

/-- C5 witness at two matching (1 ch, 2 bytes, 100 Hz) segments with
silence duration 0. -/
theorem claim_C5_witness :
    ((2 : Nat) = 2 ∧ (1 : Nat) = 1 ∧ (2 : Nat) = 2 ∧ (100 : Nat) = 100
      ∧ (0 : ℚ) ≤ 0 ∧ 1 ≤ 1 ∧ 1 * 2 ∣ 2 ∧ 1 * 2 ∣ 2)
    ∧ concat_wavs_with_silence
        [⟨⟨1, 2, 100, "NONE", "nc"⟩, [1, 2]⟩, ⟨⟨1, 2, 100, "NONE", "nc"⟩, [3, 4]⟩] 0
      = (.ok (), some ⟨⟨1, 2, 100, "NONE", "nc"⟩,
          [1, 2] ++ List.replicate (1 * (⌊((100 : Nat) : ℚ) * 0⌋).toNat * 2) 0 ++ [3, 4]⟩) :=
  ⟨⟨rfl, rfl, rfl, rfl, le_refl 0, le_refl 1, by decide, by decide⟩,
   (claim_C5_amended ⟨⟨1, 2, 100, "NONE", "nc"⟩, [1, 2]⟩ ⟨⟨1, 2, 100, "NONE", "nc"⟩, [3, 4]⟩ 0
      rfl rfl rfl rfl (le_refl 0) (le_refl 1) (by decide) (by decide)).1⟩

/-! ### Claim C6 -/

/-- C6 counterexample: a single segment of sample width 1 refutes the
claim as stated — silence is generated unconditionally even though no gap
will ever be written, so assembly fails with UnsupportedFormat and the
finalized artifact holds no frames, instead of succeeding with the frame
data of S. -/
theorem claim_C6_counterexample :
    concat_wavs_with_silence [⟨⟨1, 1, 100, "NONE", "nc"⟩, [7]⟩] 0
      = (.error (.valueError unsupportedMsg), some ⟨⟨1, 1, 100, "NONE", "nc"⟩, []⟩)
    ∧ (concat_wavs_with_silence [⟨⟨1, 1, 100, "NONE", "nc"⟩, [7]⟩] 0).1 ≠ .ok () := by
  decide

/-- C6 (amended): for every single-segment input `[S]` with sample width 2
and every silence duration (any rational, including negative), assembly
succeeds and the output frame data is exactly the frame data of S — no
silence is appended, since the loop guard `i != last` never holds. -/
theorem claim_C6_amended (S : Wav) (d : ℚ) (hsw : S.params.sampwidth = 2) :
    concat_wavs_with_silence [S] d = (.ok (), some ⟨S.params, S.frames⟩) := by
  have hs := create_silence_frames_ok S.params.nchannels S.params.framerate d
  simp only [concat_wavs_with_silence, hsw, hs, write_segments, validate_format_self]
  simp

/-- C6 witness at a single (1 ch, 2 bytes, 24000 Hz) segment with a 7 s
gap setting. -/
theorem claim_C6_witness :
    ((2 : Nat) = 2)
    ∧ concat_wavs_with_silence [⟨⟨1, 2, 24000, "NONE", "nc"⟩, [9, 9]⟩] 7
      = (.ok (), some ⟨⟨1, 2, 24000, "NONE", "nc"⟩, [9, 9]⟩) :=
  ⟨rfl, claim_C6_amended ⟨⟨1, 2, 24000, "NONE", "nc"⟩, [9, 9]⟩ 7 rfl⟩

/-! ### Claim C8 -/

/-- C8: for every non-empty input sequence the output artifact exists and
its header — channel count, sample width, frame rate, compression type
and compression name — is exactly the format of the first segment, on success
and on failure alike; in particular the compression fields come from the
reference (first) segment only, never from later segments. -/
theorem claim_C8 (first : Wav) (rest : List Wav) (d : ℚ) :
    ∃ f : OutFile, (concat_wavs_with_silence (first :: rest) d).2 = some f
      ∧ f.params = first.params := by
  cases hs : create_silence_frames first.params.nchannels first.params.sampwidth
      first.params.framerate d with
  | error e =>
    exact ⟨⟨first.params, []⟩, by simp [concat_wavs_with_silence, hs], rfl⟩
  | ok silence =>
    exact ⟨⟨first.params, (write_segments first.params silence (first :: rest)).2⟩,
      by simp [concat_wavs_with_silence, hs], rfl⟩
